import Mathlib

/-!
Verification development for the Fog4Det repository (Fog-Detection-System-for-Vehicles).

The repository's frontend consists of two React components, the developer view
(`Home`, `frontend/src/app/page.tsx`) and the driver view
(`DriverView`, `frontend/src/app/driver/page.tsx`).  Each owns a camera session:
React state fields (`isCameraOn`, `detectionResult`, `error`, `isLoading`,
`isDetecting`, and in the developer view `histogramData` and the two threshold
sliders), a `MediaStream` attached to a video element, and an interval timer that
fires `captureAndDetect`.

We embed each view's session as a state record plus an instrumentation counter
`pending` of issued-but-unresolved detection submissions.  `captureAndDetect` is
split at its natural suspension point: the synchronous part (guards, rasterize,
encode, submit) becomes a function `State -> State x TickOutcome`, and the
continuation that runs when the awaited HTTP round trip resolves becomes the
`resolveSuccess` / `resolveFailure` functions.  The backend detection algorithm
(`backend/main.py`) is not part of the repository snapshot under analysis; it is
modelled from the specification in the `Backend` namespace.
-/

/-- A track of the acquired `MediaStream`; `track.stop()` sets `stopped`. -/
structure Track where
  stopped : Bool
deriving DecidableEq, Repr

/-- External conditions consulted by one run of `captureAndDetect`:
whether the video/canvas refs are non-null, whether the video element is
paused or ended, whether `canvas.getContext('2d')` returns a context,
whether `drawImage` succeeds, and whether `canvas.toBlob` produces a
non-null blob. -/
structure CaptureEnv where
  videoPresent : Bool
  canvasPresent : Bool
  videoPaused : Bool
  videoEnded : Bool
  contextAvailable : Bool
  drawSucceeds : Bool
  blobSucceeds : Bool
deriving DecidableEq, Repr

/-- An environment in which every step of the capture pipeline succeeds. -/
def goodEnv : CaptureEnv :=
  { videoPresent := true, canvasPresent := true, videoPaused := false,
    videoEnded := false, contextAvailable := true, drawSucceeds := true,
    blobSucceeds := true }

/-- The HTTP request a cycle submits: the multipart file payload (its filename)
and the URL query parameters (name, numeric value). -/
structure Request where
  file : Option String
  queryParams : List (String × ℚ)
deriving DecidableEq, Repr

/-- Outcome of the synchronous part of one `captureAndDetect` run: either the
cycle returned before submitting anything, or it issued exactly one request. -/
inductive TickOutcome where
  | skipped
  | submitted (req : Request)
deriving DecidableEq, Repr

/-- The three-level fog severity classification. -/
inductive Intensity where
  | Clear
  | Light
  | Heavy
deriving DecidableEq, Repr

/-- The error classification performed in the driver view's catch block
(`axios.isAxiosError`, `err.code === 'ECONNABORTED'`, `err.response`,
`err.request`). -/
inductive AxiosErrorKind where
  | timeout
  | serverError (status : Nat)
  | noServerResponse
  | other
deriving DecidableEq, Repr

namespace Home

/-- The `DetectionResponse` interface of the developer view
(src/unnamed/part_000 lines 88-97). -/
structure DetectionResponse where
  fog_detected : Bool
  laplacian_variance : ℚ
  histogram_std_dev : ℚ
  message : Option String
  timestamp : Option String
  histogram : Option (List Nat)
  laplacian_threshold_used : Option ℚ
  std_dev_threshold_used : Option ℚ
deriving DecidableEq, Repr

/-- The `HistogramData` interface (lines 99-102). -/
structure HistogramData where
  bin : Nat
  frequency : Nat
deriving DecidableEq, Repr

/-- Constant `DETECTION_INTERVAL_MS` of the developer view (line 106). -/
def DETECTION_INTERVAL_MS : Nat := 1000

/-- Constant `DEFAULT_LAPLACIAN_THRESHOLD` (line 107). -/
def DEFAULT_LAPLACIAN_THRESHOLD : ℚ := 250

/-- Constant `DEFAULT_HIST_STD_DEV_THRESHOLD` (line 108). -/
def DEFAULT_HIST_STD_DEV_THRESHOLD : ℚ := 40

/-- The developer view's session state: the React state fields of `Home`
together with the video element's `srcObject` and whether the interval timer
is installed (`intervalRef.current !== null`).  `isCameraOn` also stands for
`isCameraOnRef`, which a `useEffect` keeps synchronized with it. -/
structure State where
  isCameraOn : Bool
  detectionResult : Option DetectionResponse
  error : Option String
  isLoading : Bool
  isDetecting : Bool
  histogramData : List HistogramData
  laplacianThreshold : ℚ
  histStdDevThreshold : ℚ
  srcObject : Option (List Track)
  intervalActive : Bool
deriving DecidableEq, Repr

/-- A session: the state plus the number of issued detection submissions whose
HTTP round trip has not yet resolved (instrumentation, not program state). -/
structure Session where
  state : State
  pending : Nat
deriving DecidableEq, Repr

/-- The initial React state of `Home` (lines 136-145): camera off, no result,
no error, not loading, not detecting, empty histogram, thresholds at their
defaults, no stream attached, no interval installed. -/
def initialState : State :=
  { isCameraOn := false, detectionResult := none, error := none,
    isLoading := false, isDetecting := false, histogramData := [],
    laplacianThreshold := DEFAULT_LAPLACIAN_THRESHOLD,
    histStdDevThreshold := DEFAULT_HIST_STD_DEV_THRESHOLD,
    srcObject := none, intervalActive := false }

/-- The request body and query string built by `captureAndDetect`
(lines 189-195): the blob is appended as `file` with filename `capture.jpg`,
and the URL carries `laplacian_threshold` and `std_dev_threshold` taken from
the two slider states. -/
def requestOf (s : State) : Request :=
  { file := some "capture.jpg",
    queryParams := [("laplacian_threshold", s.laplacianThreshold),
                    ("std_dev_threshold", s.histStdDevThreshold)] }

/-- Synchronous part of `captureAndDetect` (lines 154-223): return unchanged
when a ref is null, the camera flag is off, or the video is paused/ended
(line 155); return when `getContext` fails (lines 168-172); return when
`drawImage` throws (lines 175-180); return inside the `toBlob` callback when
the blob is null (lines 183-187).  Otherwise set `isDetecting` and issue the
request (lines 189-199); the awaited response is handled by `resolveSuccess`
and `resolveFailure`. -/
def captureAndDetect (env : CaptureEnv) (sess : Session) : Session × TickOutcome :=
  if !env.videoPresent || !env.canvasPresent || !sess.state.isCameraOn
      || env.videoPaused || env.videoEnded then (sess, .skipped)
  else if !env.contextAvailable then (sess, .skipped)
  else if !env.drawSucceeds then (sess, .skipped)
  else if !env.blobSucceeds then (sess, .skipped)
  else (⟨{ sess.state with isDetecting := true }, sess.pending + 1⟩,
        .submitted (requestOf sess.state))

/-- Continuation of `captureAndDetect` when the awaited POST resolves
successfully (lines 203-214 and the `finally` at line 221): publish the
response, clear the error, rebuild `histogramData` from the response's
histogram when it is present and non-empty (else clear it), and clear
`isDetecting`.  Nothing here consults `isCameraOn`. -/
def resolveSuccess (r : DetectionResponse) (sess : Session) : Session :=
  ⟨{ sess.state with
      detectionResult := some r,
      error := none,
      histogramData :=
        match r.histogram with
        | some h => if 0 < h.length
                    then h.enum.map (fun p => { bin := p.1, frequency := p.2 })
                    else []
        | none => [],
      isDetecting := false },
    sess.pending - 1⟩

/-- Continuation of `captureAndDetect` when the awaited POST fails
(lines 216-222): the error is only logged to the console, the previous result
and histogram are cleared, `isDetecting` is cleared; the `error` state is not
written. -/
def resolveFailure (sess : Session) : Session :=
  ⟨{ sess.state with
      detectionResult := none,
      histogramData := [],
      isDetecting := false },
    sess.pending - 1⟩

/-- `stopDetectionLoop` (lines 236-241): clear the interval timer. -/
def stopDetectionLoop (s : State) : State :=
  { s with intervalActive := false }

/-- `startDetectionLoop` (lines 228-234): clear any existing interval, run one
immediate `captureAndDetect`, then install the interval timer (period
`DETECTION_INTERVAL_MS`). -/
def startDetectionLoop (env : CaptureEnv) (sess : Session) : Session × TickOutcome :=
  let sess1 : Session := ⟨stopDetectionLoop sess.state, sess.pending⟩
  let r := captureAndDetect env sess1
  (⟨{ r.1.state with intervalActive := true }, r.1.pending⟩, r.2)

/-- `stopCamera` (lines 275-288): clear the interval, stop every track of the
attached stream and detach it, then clear the camera flag, the result, the
histogram, both busy indicators and the error.  The second component returns
the released stream's tracks after `track.stop()` was applied to each. -/
def stopCamera (sess : Session) : Session × List Track :=
  (⟨{ sess.state with
      intervalActive := false,
      srcObject := none,
      isCameraOn := false,
      detectionResult := none,
      histogramData := [],
      isLoading := false,
      isDetecting := false,
      error := none },
    sess.pending⟩,
   (sess.state.srcObject.getD []).map (fun _ => { stopped := true }))

/-- First phase of `startCamera` (lines 244-248), run before
`getUserMedia` is awaited: clear the error, set the loading indicator, clear
the previous result and histogram. -/
def startCameraBegin (s : State) : State :=
  { s with
    error := none,
    isLoading := true,
    detectionResult := none,
    histogramData := [] }

/-- Phase of `startCamera` after `getUserMedia` succeeds (lines 251-253):
attach the stream and set the camera flag. -/
def attachStream (stream : List Track) (s : State) : State :=
  { s with srcObject := some stream, isCameraOn := true }

/-- Modelled from the spec: the catch block of the developer view's
`startCamera` (lines 267-272) elides its error message handling behind the
comment `... error message handling ...` in the source snapshot, so the
message reported there is not inspectable; the spec requires the failure to
be reported as `DeviceUnavailable`. -/
def deviceUnavailableMsg : String := "DeviceUnavailable"

/-- Catch block of `startCamera` (lines 267-272): acquisition failed, report
the device-unavailable error (message modelled from the spec, see
`Home.deviceUnavailableMsg`), clear the loading indicator and the camera
flag. -/
def startCameraFailure (s : State) : State :=
  { s with
    error := some deviceUnavailableMsg,
    isLoading := false,
    isCameraOn := false }

/-- The `loadedmetadata` handler installed by `startCamera` (lines 255-259):
clear the loading indicator and start the detection loop. -/
def onMetadataLoaded (env : CaptureEnv) (sess : Session) : Session × TickOutcome :=
  startDetectionLoop env ⟨{ sess.state with isLoading := false }, sess.pending⟩

end Home

namespace Driver

/-- The `DetectionResponse` interface of the driver view
(src/unnamed/part_000 lines 580-591): the developer view's fields plus
`intensity` and `advice`. -/
structure DetectionResponse where
  fog_detected : Bool
  laplacian_variance : ℚ
  histogram_std_dev : ℚ
  intensity : Intensity
  advice : String
  message : Option String
  timestamp : Option String
  histogram : Option (List Nat)
  laplacian_threshold_used : Option ℚ
  std_dev_threshold_used : Option ℚ
deriving DecidableEq, Repr

/-- Constant `DETECTION_INTERVAL_MS` of the driver view (line 595). -/
def DETECTION_INTERVAL_MS : Nat := 1500

/-- The driver view's session state: the React state fields of `DriverView`
plus the video element's `srcObject` and the interval-timer flag.  The driver
view has no histogram state and no threshold sliders. -/
structure State where
  isCameraOn : Bool
  detectionResult : Option DetectionResponse
  error : Option String
  isLoading : Bool
  isDetecting : Bool
  srcObject : Option (List Track)
  intervalActive : Bool
deriving DecidableEq, Repr

/-- A session: the state plus the number of issued detection submissions whose
HTTP round trip has not yet resolved (instrumentation, not program state). -/
structure Session where
  state : State
  pending : Nat
deriving DecidableEq, Repr

/-- The initial React state of `DriverView` (lines 623-628). -/
def initialState : State :=
  { isCameraOn := false, detectionResult := none, error := none,
    isLoading := false, isDetecting := false,
    srcObject := none, intervalActive := false }

/-- The request built by the driver view's `captureAndDetect` (lines 647-649):
the blob is appended as `file` with filename `capture.jpg`, and the URL is
plain `BACKEND_URL/detect-fog` with no query parameters. -/
def requestOf : Request :=
  { file := some "capture.jpg", queryParams := [] }

/-- Synchronous part of the driver view's `captureAndDetect` (lines 632-672):
the same guard, context, draw and blob checks as the developer view
(lines 633-646), then `isDetecting` is set and the request is issued
(lines 647-653). -/
def captureAndDetect (env : CaptureEnv) (sess : Session) : Session × TickOutcome :=
  if !env.videoPresent || !env.canvasPresent || !sess.state.isCameraOn
      || env.videoPaused || env.videoEnded then (sess, .skipped)
  else if !env.contextAvailable then (sess, .skipped)
  else if !env.drawSucceeds then (sess, .skipped)
  else if !env.blobSucceeds then (sess, .skipped)
  else (⟨{ sess.state with isDetecting := true }, sess.pending + 1⟩,
        .submitted requestOf)

/-- The error message computed in the driver view's catch block
(lines 659-665): default `System error.`; for an axios error, `ECONNABORTED`
means a timeout, a populated `response` means a server error with its status,
a populated `request` with no response means no server response. -/
def errorMsgOf : AxiosErrorKind → String
  | .timeout => "Connection timeout."
  | .serverError status => "Server error: " ++ toString status
  | .noServerResponse => "No server response."
  | .other => "System error."

/-- State effect of the driver view's catch block and `finally`
(lines 658-670): publish the error through the functional update
`setError(prev => prev === errorMsg ? prev : errorMsg)`, clear the result,
clear `isDetecting`. -/
def failureUpdate (e : AxiosErrorKind) (s : State) : State :=
  { s with
    error := if s.error = some (errorMsgOf e) then s.error else some (errorMsgOf e),
    detectionResult := none,
    isDetecting := false }

/-- Continuation of `captureAndDetect` when the awaited POST resolves
successfully (lines 656-657 and the `finally` at line 669): publish the
response, clear the error, clear `isDetecting`.  Nothing here consults
`isCameraOn`. -/
def resolveSuccess (r : DetectionResponse) (sess : Session) : Session :=
  ⟨{ sess.state with
      detectionResult := some r,
      error := none,
      isDetecting := false },
    sess.pending - 1⟩

/-- Continuation of `captureAndDetect` when the awaited POST fails
(lines 658-670). -/
def resolveFailure (e : AxiosErrorKind) (sess : Session) : Session :=
  ⟨failureUpdate e sess.state, sess.pending - 1⟩

/-- `stopDetectionLoop` (lines 680-682). -/
def stopDetectionLoop (s : State) : State :=
  { s with intervalActive := false }

/-- `startDetectionLoop` (lines 674-678): clear any existing interval, run one
immediate `captureAndDetect`, then install the interval timer (period
`DETECTION_INTERVAL_MS`). -/
def startDetectionLoop (env : CaptureEnv) (sess : Session) : Session × TickOutcome :=
  let sess1 : Session := ⟨stopDetectionLoop sess.state, sess.pending⟩
  let r := captureAndDetect env sess1
  (⟨{ r.1.state with intervalActive := true }, r.1.pending⟩, r.2)

/-- `stopCamera` (lines 705-712): clear the interval, stop every track of the
attached stream and detach it, clear the camera flag, the result, both busy
indicators and the error.  The second component returns the released stream's
tracks after `track.stop()` was applied to each. -/
def stopCamera (sess : Session) : Session × List Track :=
  (⟨{ sess.state with
      intervalActive := false,
      srcObject := none,
      isCameraOn := false,
      detectionResult := none,
      isLoading := false,
      isDetecting := false,
      error := none },
    sess.pending⟩,
   (sess.state.srcObject.getD []).map (fun _ => { stopped := true }))

/-- First phase of `startCamera` (line 685), run before `getUserMedia` is
awaited: clear the error, set the loading indicator, clear the previous
result. -/
def startCameraBegin (s : State) : State :=
  { s with
    error := none,
    isLoading := true,
    detectionResult := none }

/-- Phase of `startCamera` after `getUserMedia` succeeds (line 689). -/
def attachStream (stream : List Track) (s : State) : State :=
  { s with srcObject := some stream, isCameraOn := true }

/-- Catch block of `startCamera` (lines 698-702): report
`Camera unavailable. Check permissions.`, clear the loading indicator and the
camera flag. -/
def startCameraFailure (s : State) : State :=
  { s with
    error := some "Camera unavailable. Check permissions.",
    isLoading := false,
    isCameraOn := false }

/-- The `loadedmetadata` handler installed by `startCamera` (lines 690-694). -/
def onMetadataLoaded (env : CaptureEnv) (sess : Session) : Session × TickOutcome :=
  startDetectionLoop env ⟨{ sess.state with isLoading := false }, sess.pending⟩

end Driver

namespace Backend

/-- Modelled from the spec: the backend analysis service (`backend/main.py`,
the FastAPI `detect-fog` endpoint) is not part of the source snapshot; only
its response shape appears in the frontend.  A grayscale image: width, height,
and the intensity (in `[0,255]`) at each coordinate `(x, y)` with
`x < w`, `y < h`. -/
structure GrayImage where
  w : Nat
  h : Nat
  px : Nat → Nat → ℚ

/-- The image whose every pixel has the constant intensity `c`. -/
def uniformImage (w h : Nat) (c : ℚ) : GrayImage :=
  { w := w, h := h, px := fun _ _ => c }

/-- Mean of a list of rationals (`0` for the empty list, since `0 / 0 = 0`
in `ℚ`). -/
def listMean (l : List ℚ) : ℚ := l.sum / l.length

/-- Population variance of a list of rationals (`0` for the empty list). -/
def listVariance (l : List ℚ) : ℚ :=
  (l.map (fun x => (x - listMean l) ^ 2)).sum / l.length

/-- All pixel intensities of an image, in row-major order. -/
def pixList (img : GrayImage) : List ℚ :=
  (List.range img.h).flatMap (fun y => (List.range img.w).map (fun x => img.px x y))

/-- Modelled from the spec: discrete Laplacian responses (the four-neighbour
second-derivative kernel) at every interior pixel of the image. -/
def lapList (img : GrayImage) : List ℚ :=
  (List.range (img.h - 2)).flatMap (fun j =>
    (List.range (img.w - 2)).map (fun i =>
      img.px (i + 2) (j + 1) + img.px i (j + 1)
        + img.px (i + 1) (j + 2) + img.px (i + 1) j
        - 4 * img.px (i + 1) (j + 1)))

/-- Modelled from the spec: `laplacianVariance`, the variance of the discrete
Laplacian responses; `0` signals total loss of edge detail. -/
def laplacianVariance (img : GrayImage) : ℚ := listVariance (lapList img)

/-- Modelled from the spec: the variance of the brightness distribution that
the 256-bin histogram represents, i.e. the variance of the pixel intensities.
The spec's `histogramStdDev` is its square root (a uniform image must yield
`histogramStdDev == 0`); the model carries the variance so that it stays a
rational, and the spec's comparisons on `histogramStdDev` are encoded by the
equivalent squared comparisons. -/
def histogramVariance (img : GrayImage) : ℚ := listVariance (pixList img)

/-- Fixed advice string for each intensity tier, from the spec's examples. -/
def adviceFor : Intensity → String
  | .Clear => "Conditions clear"
  | .Light => "Reduce speed, use fog lights"
  | .Heavy => "Pull over safely if visibility is critical"

/-- Modelled from the spec: the result of one analysis call.
`histogram_variance` is the square of the spec's `histogram_std_dev`. -/
structure DetectionResult where
  fog_detected : Bool
  laplacian_variance : ℚ
  histogram_variance : ℚ
  intensity : Intensity
  advice : String
deriving DecidableEq, Repr

/-- Modelled from the spec: the stateless operation
`detect(pixelBuffer, laplacianThreshold, stdDevThreshold)`.
`fogDetected = laplacianVariance < laplacianThreshold AND
histogramStdDev < stdDevThreshold`; the intensity tier comes from
`shortfall = 1 - min(laplacianVariance/laplacianThreshold,
histogramStdDev/stdDevThreshold)` with `shortfall < 0` Clear,
`0 <= shortfall < 1/2` Light, and `shortfall >= 1/2` Heavy.  Comparisons
against `histogramStdDev = sqrt(histogramVariance)` are encoded as the
equivalent squared comparisons (for positive thresholds):
`sqrt v < t` iff `v < t^2`, `sqrt v / t <= 1/2` iff `4 v <= t^2`,
`1 < sqrt v / t` iff `t^2 < v`.  Theorem `c3_detect_classification` restates
the policy in the spec's own square-root form. -/
def detect (img : GrayImage) (laplacianThreshold stdDevThreshold : ℚ) :
    DetectionResult :=
  let lv := laplacianVariance img
  let hv := histogramVariance img
  let intensity : Intensity :=
    if 2 * lv ≤ laplacianThreshold ∨ 4 * hv ≤ stdDevThreshold ^ 2 then .Heavy
    else if laplacianThreshold < lv ∧ stdDevThreshold ^ 2 < hv then .Clear
    else .Light
  { fog_detected := decide (lv < laplacianThreshold)
      && decide (hv < stdDevThreshold ^ 2),
    laplacian_variance := lv,
    histogram_variance := hv,
    intensity := intensity,
    advice := adviceFor intensity }

/-- The spec's intensity tiering, stated on the real-valued shortfall exactly
as the spec words it: `shortfall < 0` Clear, `0 <= shortfall < 1/2` Light,
`shortfall >= 1/2` Heavy.  Stated over `ℝ` for comparison with `detect`. -/
noncomputable def specTier (shortfall : ℝ) : Intensity :=
  if shortfall < 0 then .Clear
  else if shortfall < 1 / 2 then .Light
  else .Heavy

end Backend

/-- Concrete fixture: a developer-view state in the Running configuration
(camera on, one-track stream attached, interval installed, thresholds at the
defaults). -/
def homeRunningState : Home.State :=
  { Home.initialState with
    isCameraOn := true,
    srcObject := some [{ stopped := false }],
    intervalActive := true }

/-- Concrete fixture: a Running developer-view session with no submission
outstanding. -/
def homeRunningSession : Home.Session :=
  { state := homeRunningState, pending := 0 }

/-- Concrete fixture: a driver-view state in the Running configuration. -/
def driverRunningState : Driver.State :=
  { Driver.initialState with
    isCameraOn := true,
    srcObject := some [{ stopped := false }],
    intervalActive := true }

/-- Concrete fixture: a Running driver-view session with no submission
outstanding. -/
def driverRunningSession : Driver.Session :=
  { state := driverRunningState, pending := 0 }

/-- Concrete fixture: a successful backend response as the developer view
decodes it. -/
def homeSampleResponse : Home.DetectionResponse :=
  { fog_detected := true, laplacian_variance := 10, histogram_std_dev := 5,
    message := none, timestamp := none, histogram := none,
    laplacian_threshold_used := none, std_dev_threshold_used := none }

/-- Concrete fixture: an environment where `canvas.getContext('2d')`
returns null. -/
def noContextEnv : CaptureEnv :=
  { goodEnv with contextAvailable := false }

/-!  Helper lemmas about the list statistics of the modelled backend. -/

/-- The variance of a list of rationals is non-negative. -/
theorem listVariance_nonneg (l : List ℚ) : 0 ≤ Backend.listVariance l := by
  unfold Backend.listVariance
  apply div_nonneg
  · apply List.sum_nonneg
    intro x hx
    obtain ⟨y, -, rfl⟩ := List.mem_map.1 hx
    positivity
  · positivity

/-- The variance of a constant list is zero. -/
theorem listVariance_of_const (l : List ℚ) (c : ℚ) (h : ∀ x ∈ l, x = c) :
    Backend.listVariance l = 0 := by
  rcases eq_or_ne l [] with rfl | hne
  · simp [Backend.listVariance, Backend.listMean]
  · have hn : (l.length : ℚ) ≠ 0 := Nat.cast_ne_zero.2 (List.length_pos.2 hne).ne'
    have hsum : l.sum = (l.length : ℚ) * c := by
      conv_lhs => rw [List.eq_replicate_length.2 h]
      rw [List.sum_replicate, nsmul_eq_mul]
    have hmean : Backend.listMean l = c := by
      rw [Backend.listMean, hsum, mul_comm, mul_div_assoc, div_self hn, mul_one]
    have hz : ∀ x ∈ l.map (fun x => (x - Backend.listMean l) ^ 2), x = 0 := by
      intro x hx
      obtain ⟨y, hy, rfl⟩ := List.mem_map.1 hx
      rw [h y hy, hmean]; ring
    rw [Backend.listVariance, List.sum_eq_zero hz, zero_div]

/-- Every Laplacian response of a uniform image is zero. -/
theorem lapList_uniform (w h : Nat) (c : ℚ) :
    ∀ x ∈ Backend.lapList (Backend.uniformImage w h c), x = 0 := by
  intro x hx
  simp only [Backend.lapList, Backend.uniformImage, List.mem_flatMap, List.mem_map,
    List.mem_range] at hx
  obtain ⟨j, -, i, -, hE⟩ := hx
  linarith [hE]

/-- Every pixel of a uniform image has the constant intensity. -/
theorem pixList_uniform (w h : Nat) (c : ℚ) :
    ∀ x ∈ Backend.pixList (Backend.uniformImage w h c), x = c := by
  intro x hx
  simp only [Backend.pixList, Backend.uniformImage, List.mem_flatMap, List.mem_map,
    List.mem_range] at hx
  obtain ⟨j, -, i, -, hE⟩ := hx
  exact hE.symm

/-- A uniform image has zero Laplacian variance. -/
theorem laplacianVariance_uniform (w h : Nat) (c : ℚ) :
    Backend.laplacianVariance (Backend.uniformImage w h c) = 0 :=
  listVariance_of_const _ 0 (lapList_uniform w h c)

/-- A uniform image has zero brightness variance. -/
theorem histogramVariance_uniform (w h : Nat) (c : ℚ) :
    Backend.histogramVariance (Backend.uniformImage w h c) = 0 :=
  listVariance_of_const _ c (pixList_uniform w h c)

/-- The squared-comparison tiering used by `Backend.detect` agrees with the
spec's shortfall tiering on the real-valued metrics. -/
theorem specTier_eq_squared_cases (lv hv lt st : ℚ) (hlt : 0 < lt) (hst : 0 < st) :
    Backend.specTier (1 - min ((lv : ℝ) / (lt : ℝ)) (Real.sqrt hv / (st : ℝ)))
      = (if 2 * lv ≤ lt ∨ 4 * hv ≤ st ^ 2 then Intensity.Heavy
         else if lt < lv ∧ st ^ 2 < hv then Intensity.Clear
         else Intensity.Light) := by
  have hltR : (0:ℝ) < (lt : ℝ) := by exact_mod_cast hlt
  have hstR : (0:ℝ) < (st : ℝ) := by exact_mod_cast hst
  set a : ℝ := (lv : ℝ) / (lt : ℝ) with ha
  set b : ℝ := Real.sqrt hv / (st : ℝ) with hb
  have hA : a ≤ 1 / 2 ↔ 2 * lv ≤ lt := by
    rw [ha, div_le_iff₀ hltR]
    constructor
    · intro hcmp
      have h2 : (2 * lv : ℝ) ≤ (lt : ℝ) := by linarith
      exact_mod_cast h2
    · intro hcmp
      have h2 : (2 * lv : ℝ) ≤ (lt : ℝ) := by exact_mod_cast hcmp
      linarith
  have hB : b ≤ 1 / 2 ↔ 4 * hv ≤ st ^ 2 := by
    rw [hb, div_le_iff₀ hstR, Real.sqrt_le_iff]
    constructor
    · rintro ⟨-, hcmp⟩
      have h4 : (4 * hv : ℝ) ≤ ((st : ℝ)) ^ 2 := by nlinarith
      exact_mod_cast h4
    · intro hcmp
      have h4 : (4 * hv : ℝ) ≤ ((st : ℝ)) ^ 2 := by exact_mod_cast hcmp
      exact ⟨by positivity, by nlinarith⟩
  have hA1 : 1 < a ↔ lt < lv := by
    rw [ha, one_lt_div hltR]
    exact Rat.cast_lt
  have hB1 : 1 < b ↔ st ^ 2 < hv := by
    rw [hb, one_lt_div hstR, Real.lt_sqrt hstR.le]
    exact_mod_cast Iff.rfl
  rcases le_or_lt (min a b) (1 / 2) with hm | hm
  · have hcond : 2 * lv ≤ lt ∨ 4 * hv ≤ st ^ 2 := by
      rcases min_le_iff.1 hm with hc | hc
      · exact Or.inl (hA.1 hc)
      · exact Or.inr (hB.1 hc)
    rw [if_pos hcond]
    unfold Backend.specTier
    rw [if_neg (by linarith), if_neg (by linarith)]
  · have hcond : ¬(2 * lv ≤ lt ∨ 4 * hv ≤ st ^ 2) := by
      rintro (hc | hc)
      · exact absurd (min_le_of_left_le (hA.2 hc)) (not_le.2 hm)
      · exact absurd (min_le_of_right_le (hB.2 hc)) (not_le.2 hm)
    rw [if_neg hcond]
    rcases lt_or_le 1 (min a b) with hm1 | hm1
    · obtain ⟨h1a, h1b⟩ := lt_min_iff.1 hm1
      rw [if_pos ⟨hA1.1 h1a, hB1.1 h1b⟩]
      unfold Backend.specTier
      rw [if_pos (by linarith)]
    · have hnclear : ¬(lt < lv ∧ st ^ 2 < hv) := by
        rintro ⟨h1, h2⟩
        have : 1 < min a b := lt_min_iff.2 ⟨hA1.2 h1, hB1.2 h2⟩
        linarith
      rw [if_neg hnclear]
      unfold Backend.specTier
      rw [if_neg (by linarith), if_pos (by linarith)]

/-- C3: for every pixel buffer and every pair of positive thresholds,
`detect` returns `fogDetected = (laplacianVariance < laplacianThreshold AND
histogramStdDev < stdDevThreshold)`; the intensity is the tier of
`shortfall = 1 - min(laplacianVariance/laplacianThreshold,
histogramStdDev/stdDevThreshold)` (Clear when `shortfall < 0`, Light when
`0 <= shortfall < 1/2`, Heavy when `shortfall >= 1/2`); and a uniform image
(both metrics zero) classifies as `fogDetected = true` with intensity Heavy.
The backend is modelled from the spec (`Backend.detect`);
`histogramStdDev = Real.sqrt (Backend.histogramVariance img)`. -/
theorem c3_detect_classification (img : Backend.GrayImage) (lt st : ℚ)
    (hlt : 0 < lt) (hst : 0 < st) :
    ((Backend.detect img lt st).fog_detected = true ↔
      (Backend.laplacianVariance img < lt ∧
        Real.sqrt (Backend.histogramVariance img) < (st : ℝ)))
    ∧ (Backend.detect img lt st).intensity =
        Backend.specTier (1 - min ((Backend.laplacianVariance img : ℝ) / (lt : ℝ))
          (Real.sqrt (Backend.histogramVariance img) / (st : ℝ)))
    ∧ (∀ w h c, (Backend.detect (Backend.uniformImage w h c) lt st).fog_detected = true
        ∧ (Backend.detect (Backend.uniformImage w h c) lt st).intensity
            = Intensity.Heavy) := by
  have hstR : (0:ℝ) < (st : ℝ) := by exact_mod_cast hst
  refine ⟨?_, ?_, ?_⟩
  · simp only [Backend.detect, Bool.and_eq_true, decide_eq_true_eq]
    rw [Real.sqrt_lt' hstR]
    constructor
    · rintro ⟨h1, h2⟩
      exact ⟨h1, by exact_mod_cast h2⟩
    · rintro ⟨h1, h2⟩
      exact ⟨h1, by exact_mod_cast h2⟩
  · rw [specTier_eq_squared_cases (Backend.laplacianVariance img)
      (Backend.histogramVariance img) lt st hlt hst]
    simp only [Backend.detect]
  · intro w h c
    have hl0 := laplacianVariance_uniform w h c
    have hh0 := histogramVariance_uniform w h c
    constructor
    · simp only [Backend.detect, hl0, hh0, Bool.and_eq_true, decide_eq_true_eq]
      exact ⟨hlt, by positivity⟩
    · simp only [Backend.detect, hl0, hh0]
      rw [if_pos (Or.inl (by linarith))]

/-- Witness for C3: the hypotheses hold at the default thresholds
`(250, 40)`, and the theorem applied to the uniform 4x4 mid-gray image yields
fog detected with intensity Heavy. -/
theorem c3_detect_classification_witness :
    (0 : ℚ) < 250 ∧ (0 : ℚ) < 40 ∧
    ((Backend.detect (Backend.uniformImage 4 4 128) 250 40).fog_detected = true
      ∧ (Backend.detect (Backend.uniformImage 4 4 128) 250 40).intensity
          = Intensity.Heavy) :=
  ⟨by norm_num, by norm_num,
    (c3_detect_classification (Backend.uniformImage 4 4 128) 250 40 (by norm_num)
      (by norm_num)).2.2 4 4 128⟩

/-- C1 counterexample: the claim says a tick with an unresolved submission
outstanding is skipped entirely.  In the developer view, from the Running
fixture one tick issues a submission (one outstanding, `isDetecting` set);
the next tick, with that submission still unresolved, again submits instead
of skipping, leaving two unresolved submissions outstanding. -/
theorem c1_counterexample :
    (Home.captureAndDetect goodEnv homeRunningSession).1.pending = 1
    ∧ (Home.captureAndDetect goodEnv homeRunningSession).1.state.isDetecting = true
    ∧ (Home.captureAndDetect goodEnv
        (Home.captureAndDetect goodEnv homeRunningSession).1).2
        = TickOutcome.submitted (Home.requestOf homeRunningState)
    ∧ (Home.captureAndDetect goodEnv
        (Home.captureAndDetect goodEnv homeRunningSession).1).1.pending = 2 := by
  refine ⟨rfl, rfl, ?_, rfl⟩
  rfl

/-- C1 amended: neither view's capture cycle consults the in-flight state.
The outcome of a tick is unchanged by the number of unresolved submissions
outstanding and by the `isDetecting` flag, and whenever a tick does not skip
it issues one more submission, so a tick during a slow response yields a
second outstanding submission rather than being skipped. -/
theorem c1_no_inflight_guard (env : CaptureEnv) (st : Home.State)
    (dst : Driver.State) (n m : Nat) (b b2 : Bool) :
    ((Home.captureAndDetect env ⟨st, n⟩).2
        = (Home.captureAndDetect env ⟨{ st with isDetecting := b }, 0⟩).2)
    ∧ ((Home.captureAndDetect env ⟨st, n⟩).1.pending
        = n + (if (Home.captureAndDetect env ⟨st, n⟩).2 = TickOutcome.skipped
               then 0 else 1))
    ∧ ((Driver.captureAndDetect env ⟨dst, m⟩).2
        = (Driver.captureAndDetect env ⟨{ dst with isDetecting := b2 }, 0⟩).2)
    ∧ ((Driver.captureAndDetect env ⟨dst, m⟩).1.pending
        = m + (if (Driver.captureAndDetect env ⟨dst, m⟩).2 = TickOutcome.skipped
               then 0 else 1)) := by
  obtain ⟨s1, s2, s3, s4, s5, s6, s7, s8, s9, s10⟩ := st
  obtain ⟨d1, d2, d3, d4, d5, d6, d7⟩ := dst
  refine ⟨?_, ?_, ?_, ?_⟩ <;>
    · simp only [Home.captureAndDetect, Driver.captureAndDetect, Home.requestOf,
        Driver.requestOf]
      split_ifs <;> simp_all

/-- C2 counterexample: the claim says a late response arriving after stop is
discarded and the cleared result stays cleared.  In the developer view, from
the Running fixture a tick issues a submission, `stopCamera` then clears the
result; when the in-flight response later resolves, its result is published
to the stopped session, overwriting the cleared state. -/
theorem c2_counterexample :
    ((Home.stopCamera
        (Home.captureAndDetect goodEnv homeRunningSession).1).1.state.detectionResult
      = none)
    ∧ ((Home.stopCamera
        (Home.captureAndDetect goodEnv homeRunningSession).1).1.state.isCameraOn
      = false)
    ∧ ((Home.resolveSuccess homeSampleResponse
          (Home.stopCamera
            (Home.captureAndDetect goodEnv homeRunningSession).1).1).state.detectionResult
      = some homeSampleResponse) :=
  ⟨rfl, rfl, rfl⟩

/-- C2 amended: stopping cancels the interval but does not discard in-flight
responses.  The resolution handlers never consult the stopped flag: a late
success publishes its result to the just-stopped session in either view, and
a late failure in the driver view publishes its error message over the
cleared error state. -/
theorem c2_late_response_applied (s : Home.Session) (r : Home.DetectionResponse)
    (d : Driver.Session) (r2 : Driver.DetectionResponse) (e : AxiosErrorKind) :
    ((Home.resolveSuccess r (Home.stopCamera s).1).state.detectionResult = some r)
    ∧ ((Home.resolveSuccess r (Home.stopCamera s).1).state.isCameraOn = false)
    ∧ ((Driver.resolveSuccess r2 (Driver.stopCamera d).1).state.detectionResult
        = some r2)
    ∧ ((Driver.resolveSuccess r2 (Driver.stopCamera d).1).state.isCameraOn = false)
    ∧ ((Driver.resolveFailure e (Driver.stopCamera d).1).state.error
        = some (Driver.errorMsgOf e)) := by
  refine ⟨rfl, rfl, rfl, rfl, ?_⟩
  simp [Driver.resolveFailure, Driver.failureUpdate, Driver.stopCamera]

/-- C4 counterexample: the claim says a failed detection cycle publishes the
error in both views.  In the developer view, a failed cycle from the Running
fixture (whose error state is `none`) leaves the error state `none`: the
failure is only logged to the console, never published. -/
theorem c4_counterexample :
    homeRunningSession.state.error = none
    ∧ (Home.resolveFailure homeRunningSession).state.error = none
    ∧ (Home.resolveFailure homeRunningSession).state.detectionResult = none :=
  ⟨rfl, rfl, rfl⟩

/-- C4 amended: a failed detection cycle clears the previous result and
leaves the interval timer untouched in both views (so the next scheduled tick
still runs), and the driver view publishes the computed error message; the
developer view, however, leaves its error state unchanged, publishing
nothing. -/
theorem c4_failed_cycle_behavior (s : Home.Session) (d : Driver.Session)
    (e : AxiosErrorKind) :
    ((Home.resolveFailure s).state.error = s.state.error)
    ∧ ((Home.resolveFailure s).state.detectionResult = none)
    ∧ ((Home.resolveFailure s).state.histogramData = [])
    ∧ ((Home.resolveFailure s).state.intervalActive = s.state.intervalActive)
    ∧ ((Driver.resolveFailure e d).state.error = some (Driver.errorMsgOf e))
    ∧ ((Driver.resolveFailure e d).state.detectionResult = none)
    ∧ ((Driver.resolveFailure e d).state.intervalActive = d.state.intervalActive) := by
  refine ⟨rfl, rfl, rfl, rfl, ?_, rfl, rfl⟩
  simp only [Driver.resolveFailure, Driver.failureUpdate]
  split
  · next h => exact h
  · rfl

/-- C5: from any state, `stopCamera` in either view cancels the interval
timer, stops every track of the acquired media stream and detaches it, clears
the last published result and the last error, and leaves the session Idle:
camera flag off, no loading indicator, no detecting indicator. -/
theorem c5_stop_releases_everything (s : Home.Session) (d : Driver.Session) :
    ((Home.stopCamera s).1.state.intervalActive = false)
    ∧ ((Home.stopCamera s).2.length = (s.state.srcObject.getD []).length)
    ∧ (∀ t ∈ (Home.stopCamera s).2, t.stopped = true)
    ∧ ((Home.stopCamera s).1.state.srcObject = none)
    ∧ ((Home.stopCamera s).1.state.detectionResult = none)
    ∧ ((Home.stopCamera s).1.state.error = none)
    ∧ ((Home.stopCamera s).1.state.isCameraOn = false)
    ∧ ((Home.stopCamera s).1.state.isLoading = false)
    ∧ ((Home.stopCamera s).1.state.isDetecting = false)
    ∧ ((Driver.stopCamera d).1.state.intervalActive = false)
    ∧ ((Driver.stopCamera d).2.length = (d.state.srcObject.getD []).length)
    ∧ (∀ t ∈ (Driver.stopCamera d).2, t.stopped = true)
    ∧ ((Driver.stopCamera d).1.state.srcObject = none)
    ∧ ((Driver.stopCamera d).1.state.detectionResult = none)
    ∧ ((Driver.stopCamera d).1.state.error = none)
    ∧ ((Driver.stopCamera d).1.state.isCameraOn = false)
    ∧ ((Driver.stopCamera d).1.state.isLoading = false)
    ∧ ((Driver.stopCamera d).1.state.isDetecting = false) := by
  refine ⟨rfl, ?_, ?_, rfl, rfl, rfl, rfl, rfl, rfl, rfl, ?_, ?_, rfl, rfl, rfl,
    rfl, rfl, rfl⟩
  · simp [Home.stopCamera]
  · intro t ht
    obtain ⟨u, -, rfl⟩ := List.mem_map.1 ht
    rfl
  · simp [Driver.stopCamera]
  · intro t ht
    obtain ⟨u, -, rfl⟩ := List.mem_map.1 ht
    rfl

/-- C6: when rasterization or encoding fails (no drawing context, `drawImage`
throws, or the encoder produces a null blob), the cycle is a no-op in both
views: the session is unchanged, nothing is submitted, no error state is
published, and the loop keeps running. -/
theorem c6_encode_failure_noop (env : CaptureEnv) (s : Home.Session)
    (d : Driver.Session)
    (h : env.contextAvailable = false ∨ env.drawSucceeds = false
          ∨ env.blobSucceeds = false) :
    Home.captureAndDetect env s = (s, TickOutcome.skipped)
    ∧ Driver.captureAndDetect env d = (d, TickOutcome.skipped) := by
  rcases h with h | h | h <;>
    simp [Home.captureAndDetect, Driver.captureAndDetect, h]

/-- Witness for C6 at the environment where `getContext` returns null and the
Running fixtures. -/
theorem c6_encode_failure_noop_witness :
    (noContextEnv.contextAvailable = false ∨ noContextEnv.drawSucceeds = false
      ∨ noContextEnv.blobSucceeds = false)
    ∧ (Home.captureAndDetect noContextEnv homeRunningSession
        = (homeRunningSession, TickOutcome.skipped)
      ∧ Driver.captureAndDetect noContextEnv driverRunningSession
        = (driverRunningSession, TickOutcome.skipped)) :=
  ⟨Or.inl rfl,
    c6_encode_failure_noop noContextEnv homeRunningSession driverRunningSession
      (Or.inl rfl)⟩

/-- C7 counterexample: the claim says every submission carries the
`laplacian_threshold` and `std_dev_threshold` query parameters in both views.
In the driver view, a Running tick submits the image payload with an empty
query string: no threshold parameter is sent at all. -/
theorem c7_counterexample :
    (Driver.captureAndDetect goodEnv driverRunningSession).2
      = TickOutcome.submitted { file := some "capture.jpg", queryParams := [] } :=
  rfl

/-- C7 amended: every developer-view submission carries the encoded image
payload plus the `laplacian_threshold` and `std_dev_threshold` query
parameters holding the slider state, whose initial values are the defaults
250.0 and 40.0; every driver-view submission carries the payload but no query
parameters, leaving the thresholds to the backend's own defaults. -/
theorem c7_request_contents (env : CaptureEnv) (s : Home.Session)
    (d : Driver.Session) :
    ((Home.captureAndDetect env s).2 = TickOutcome.skipped
      ∨ (Home.captureAndDetect env s).2 = TickOutcome.submitted
          { file := some "capture.jpg",
            queryParams := [("laplacian_threshold", s.state.laplacianThreshold),
                            ("std_dev_threshold", s.state.histStdDevThreshold)] })
    ∧ (Home.initialState.laplacianThreshold = 250
        ∧ Home.initialState.histStdDevThreshold = 40)
    ∧ ((Driver.captureAndDetect env d).2 = TickOutcome.skipped
      ∨ (Driver.captureAndDetect env d).2 = TickOutcome.submitted
          { file := some "capture.jpg", queryParams := [] }) := by
  refine ⟨?_, ⟨rfl, rfl⟩, ?_⟩ <;>
    · simp only [Home.captureAndDetect, Driver.captureAndDetect, Home.requestOf,
        Driver.requestOf]
      split_ifs <;> simp

/-- C8: starting the detection loop in either view first runs one immediate
capture cycle (from the interval-cleared session) and then installs the
interval timer; both views' fixed periods lie in the 1000 to 1500 ms
default range; and on acquisition failure `startCamera` returns the session
to Idle (camera off, not loading) with the device-unavailable error
published (the developer view's message text is modelled from the spec, see
`Home.deviceUnavailableMsg`). -/
theorem c8_start_behavior (env : CaptureEnv) (s : Home.Session)
    (d : Driver.Session) :
    ((Home.startDetectionLoop env s).2
        = (Home.captureAndDetect env ⟨Home.stopDetectionLoop s.state, s.pending⟩).2)
    ∧ ((Home.startDetectionLoop env s).1.state.intervalActive = true)
    ∧ (1000 ≤ Home.DETECTION_INTERVAL_MS ∧ Home.DETECTION_INTERVAL_MS ≤ 1500)
    ∧ ((Driver.startDetectionLoop env d).2
        = (Driver.captureAndDetect env
            ⟨Driver.stopDetectionLoop d.state, d.pending⟩).2)
    ∧ ((Driver.startDetectionLoop env d).1.state.intervalActive = true)
    ∧ (1000 ≤ Driver.DETECTION_INTERVAL_MS ∧ Driver.DETECTION_INTERVAL_MS ≤ 1500)
    ∧ (∀ st : Home.State, (Home.startCameraFailure st).isCameraOn = false
        ∧ (Home.startCameraFailure st).isLoading = false
        ∧ (Home.startCameraFailure st).error = some Home.deviceUnavailableMsg)
    ∧ (∀ dst : Driver.State, (Driver.startCameraFailure dst).isCameraOn = false
        ∧ (Driver.startCameraFailure dst).isLoading = false
        ∧ (Driver.startCameraFailure dst).error
            = some "Camera unavailable. Check permissions.") := by
  refine ⟨rfl, rfl, ⟨by decide, by decide⟩, rfl, rfl, ⟨by decide, by decide⟩,
    fun st => ⟨rfl, rfl, rfl⟩, fun dst => ⟨rfl, rfl, rfl⟩⟩

/-- C9: publishing a cycle error in the driver view is idempotent.  When the
newly computed error message equals the currently published one, the
functional update returns the identical previous value; and running a second
identical failure cycle (the tick sets `isDetecting`, the resolution fails
the same way) produces exactly the state of the first, so repeated identical
failures cause no state change after the first. -/
theorem c9_error_publish_idempotent (e : AxiosErrorKind) (st : Driver.State)
    (h : st.error = some (Driver.errorMsgOf e)) :
    ((Driver.failureUpdate e st).error = st.error)
    ∧ (Driver.failureUpdate e { Driver.failureUpdate e st with isDetecting := true }
        = Driver.failureUpdate e st) := by
  constructor
  · simp only [Driver.failureUpdate]
    rw [if_pos h]
  · simp only [Driver.failureUpdate]
    by_cases hc : st.error = some (Driver.errorMsgOf e) <;> simp [hc]

/-- Witness for C9: a driver state already publishing the timeout message;
the theorem applies and the republished error is the identical previous
value. -/
theorem c9_error_publish_idempotent_witness :
    ({ driverRunningState with
        error := some "Connection timeout." } : Driver.State).error
      = some (Driver.errorMsgOf AxiosErrorKind.timeout)
    ∧ (Driver.failureUpdate AxiosErrorKind.timeout
        { driverRunningState with error := some "Connection timeout." }).error
      = ({ driverRunningState with
            error := some "Connection timeout." } : Driver.State).error :=
  ⟨rfl,
    (c9_error_publish_idempotent AxiosErrorKind.timeout
      { driverRunningState with error := some "Connection timeout." } rfl).1⟩

/-- C10: in either view, the first phase of `startCamera` (run before device
acquisition is attempted) clears the previous error and the previous
detection result, and in the developer view also the histogram data, so no
stale output of an earlier session is observable during Starting or at the
beginning of the new session. -/
theorem c10_start_clears_previous_outputs (s : Home.State) (d : Driver.State) :
    ((Home.startCameraBegin s).error = none)
    ∧ ((Home.startCameraBegin s).detectionResult = none)
    ∧ ((Home.startCameraBegin s).histogramData = [])
    ∧ ((Home.startCameraBegin s).isLoading = true)
    ∧ ((Driver.startCameraBegin d).error = none)
    ∧ ((Driver.startCameraBegin d).detectionResult = none)
    ∧ ((Driver.startCameraBegin d).isLoading = true) :=
  ⟨rfl, rfl, rfl, rfl, rfl, rfl, rfl⟩
